import Mathlib

/-!
Verification of the revenue aggregation core of a payments analytics
service.  The definitions below are a shallow embedding of
`app/database/crud/crud_payment.py` (the SQL aggregate queries over the
`payments` table, modelled as list traversals over a snapshot of the
records) and `app/api/v1/endpoints/revenue.py` (timestamp normalization
and the range endpoints).  Decimal amounts (`Numeric(12, 2)`) are
modelled as integers in hundredths of a unit; `float` conversion at the
Python boundary is value-preserving for the claims considered here.
-/

/-- Calendar timestamp as stored in the `payment_date` column
(`TIMESTAMP WITHOUT TIME ZONE`): wall-clock fields with microsecond
precision, matching Python `datetime` field ranges. -/
structure CalDateTime where
  year : Nat
  month : Nat
  day : Nat
  hour : Nat
  minute : Nat
  second : Nat
  usec : Nat
  month_ge : 1 ≤ month := by decide
  month_le : month ≤ 12 := by decide
  day_ge : 1 ≤ day := by decide
  day_le : day ≤ 31 := by decide
  hour_le : hour ≤ 23 := by decide
  minute_le : minute ≤ 59 := by decide
  second_le : second ≤ 59 := by decide
  usec_le : usec ≤ 999999 := by decide
deriving DecidableEq

/-- Mixed-radix linearization of a `CalDateTime`.  Because every field is
within its radix bound, `dtKey` is strictly monotone with respect to the
lexicographic (chronological) order on wall-clock fields, so comparing
keys is exactly the SQL comparison of `TIMESTAMP` values. -/
def dtKey (t : CalDateTime) : Nat :=
  (((((t.year * 13 + t.month) * 32 + t.day) * 24 + t.hour) * 60 + t.minute) * 60
      + t.second) * 1000000 + t.usec

/-- Chronological comparison of stored timestamps (SQL `<=` on the
`payment_date` column). -/
def dtLe (a b : CalDateTime) : Bool :=
  decide (dtKey a ≤ dtKey b)

/-- Row of the `payments` table (`app/database/models/payment.py`),
parametrized by the timestamp representation so that the aggregation
queries can be stated both over calendar timestamps and over linear
(epoch-microsecond) timestamps. -/
structure Payment (T : Type) where
  id : Nat
  transaction_id : String
  customer_id : String
  customer_email : String
  customer_name : Option String
  amount : Int
  currency : String
  payment_method : String
  status : String
  product_name : Option String
  product_category : Option String
  description : Option String
  extra_data : Option String
  payment_date : T
  created_at : T
  updated_at : T

/-- WHERE clause built by `calculate_revenue` / `revenue_by_category`:
`status == status`, plus `payment_date >= start_date` when a start bound
is supplied and `payment_date <= end_date` when an end bound is supplied
(the Python `if start_date:` truthiness test on an `Optional[datetime]`
is exactly the `none` test, since `datetime` objects are always truthy). -/
def matchesFilter {T : Type} (le : T → T → Bool) (start_date end_date : Option T)
    (status : String) (p : Payment T) : Bool :=
  (p.status == status)
    && (match start_date with
        | some s => le s p.payment_date
        | none => true)
    && (match end_date with
        | some e => le p.payment_date e
        | none => true)

/-- Records selected by the WHERE clause of the aggregate query. -/
def matchedRecords {T : Type} (le : T → T → Bool) (start_date end_date : Option T)
    (status : String) (records : List (Payment T)) : List (Payment T) :=
  records.filter (matchesFilter le start_date end_date status)

/-- SQL `SUM(amount)` and `COUNT(id)` over a list of rows.  `SUM` over an
empty set is NULL and the Python code maps NULL (and the falsy
`Decimal("0")`) to `0.0`, which coincides with the integer sum `0`. -/
def pairSum {T : Type} (l : List (Payment T)) : Int × Nat :=
  ((l.map (·.amount)).sum, l.length)

/-- Embedding of `PaymentCRUD.calculate_revenue`: total amount and
transaction count over the records matching the status filter and the
optional inclusive window. -/
def calculate_revenue {T : Type} (le : T → T → Bool) (records : List (Payment T))
    (start_date end_date : Option T) (status : String) : Int × Nat :=
  pairSum (matchedRecords le start_date end_date status records)

/-- Filter predicate written from the specification text: the status
matches exactly (case-sensitive string equality) and, for each bound that
is given, the payment timestamp respects that bound inclusively. -/
def specMatches {T : Type} (le : T → T → Bool) (start_date end_date : Option T)
    (status : String) (p : Payment T) : Prop :=
  p.status = status
    ∧ (∀ s ∈ start_date, le s p.payment_date = true)
    ∧ (∀ e ∈ end_date, le p.payment_date e = true)

instance {T : Type} (le : T → T → Bool) (start_date end_date : Option T)
    (status : String) (p : Payment T) :
    Decidable (specMatches le start_date end_date status p) := by
  unfold specMatches
  infer_instance

/-- Pointwise agreement of the code's WHERE clause with the
specification's filter predicate. -/
lemma matchesFilter_iff_specMatches {T : Type} (le : T → T → Bool)
    (start_date end_date : Option T) (status : String) (p : Payment T) :
    matchesFilter le start_date end_date status p = true
      ↔ specMatches le start_date end_date status p := by
  unfold matchesFilter specMatches
  cases start_date <;> cases end_date <;>
    simp [Bool.and_eq_true, beq_iff_eq, and_assoc]

/-- Claim C1: `calculate_revenue` counts and sums exactly the records
satisfying the specification's filter predicate — status equal
(case-sensitive), payment timestamp `>= start` when a start bound is
given and `<= end` when an end bound is given, both bounds inclusive. -/
theorem C1_total_revenue_filter {T : Type} (le : T → T → Bool)
    (records : List (Payment T)) (start_date end_date : Option T) (status : String) :
    calculate_revenue le records start_date end_date status
      = (((records.filter fun p => decide (specMatches le start_date end_date status p)).map
            (·.amount)).sum,
          (records.filter fun p => decide (specMatches le start_date end_date status p)).length) := by
  unfold calculate_revenue pairSum matchedRecords
  have h : records.filter (matchesFilter le start_date end_date status)
      = records.filter fun p => decide (specMatches le start_date end_date status p) := by
    apply List.filter_congr
    intro p _
    rcases h : matchesFilter le start_date end_date status p with _ | _
    · have := (not_iff_not.mpr (matchesFilter_iff_specMatches le start_date end_date status p)).mp
        (by simp [h])
      simp [this]
    · have := (matchesFilter_iff_specMatches le start_date end_date status p).mp h
      simp [this]
  rw [h]

/-- Claim C4: when zero records satisfy the filter, `calculate_revenue`
returns exactly `(0, 0)` (the Python code maps the NULL `SUM` of an
empty set to `0.0`), never an error or null. -/
theorem C4_empty_match_zero {T : Type} (le : T → T → Bool)
    (records : List (Payment T)) (start_date end_date : Option T) (status : String)
    (h : ∀ p ∈ records, ¬ specMatches le start_date end_date status p) :
    calculate_revenue le records start_date end_date status = (0, 0) := by
  unfold calculate_revenue pairSum matchedRecords
  have hnil : records.filter (matchesFilter le start_date end_date status) = [] := by
    rw [List.filter_eq_nil_iff]
    intro p hp
    intro hmatch
    exact h p hp ((matchesFilter_iff_specMatches le start_date end_date status p).mp hmatch)
  rw [hnil]
  rfl

/-- Sum of a pointwise-added map splits into two sums. -/
lemma list_sum_map_add {α M : Type} [AddCommMonoid M] (l : List α) (f g : α → M) :
    (l.map fun a => f a + g a).sum = (l.map f).sum + (l.map g).sum := by
  induction l with
  | nil => simp
  | cons a t ih => simp [ih]; abel

/-- Vanishing sum of indicator values over a list avoiding the key. -/
lemma sum_map_beq_zero {β M : Type} [BEq β] [LawfulBEq β] [AddCommMonoid M]
    (S : List β) (b : β) (v : M) (hb : b ∉ S) :
    (S.map fun c => if b == c then v else 0).sum = 0 := by
  induction S with
  | nil => simp
  | cons a t ih =>
    have hba : (b == a) = false := by
      rw [beq_eq_false_iff_ne]
      intro h
      exact hb (h ▸ List.mem_cons_self a t)
    have hbt : b ∉ t := fun h => hb (List.mem_cons_of_mem a h)
    simp [hba, ih hbt]

/-- Sum of indicator values over a duplicate-free list containing the key. -/
lemma sum_map_beq_single {β M : Type} [BEq β] [LawfulBEq β] [AddCommMonoid M]
    (S : List β) (hS : S.Nodup) (b : β) (hb : b ∈ S) (v : M) :
    (S.map fun c => if b == c then v else 0).sum = v := by
  induction S with
  | nil => cases hb
  | cons a t ih =>
    rw [List.nodup_cons] at hS
    rcases hba : (b == a) with _ | _
    · have hbt : b ∈ t := by
        rcases List.mem_cons.mp hb with h | h
        · rw [beq_eq_false_iff_ne] at hba; exact absurd h hba
        · exact h
      simp [hba, ih hS.2 hbt]
    · have hbeq : b = a := by rwa [beq_iff_eq] at hba
      have hbt : b ∉ t := hbeq ▸ hS.1
      simp [hba, sum_map_beq_zero t b v hbt]

/-- Fiberwise summation: summing the per-group sums over any duplicate-free
list of keys covering a record list gives the sum over the whole list. -/
lemma sum_over_groups {α β M : Type} [BEq β] [LawfulBEq β] [AddCommMonoid M]
    (k : α → β) (f : α → M) (S : List β) (hS : S.Nodup) :
    ∀ l : List α, (∀ a ∈ l, k a ∈ S) →
      (S.map fun c => ((l.filter fun a => k a == c).map f).sum).sum = (l.map f).sum := by
  intro l
  induction l with
  | nil => intro _; simp
  | cons a t ih =>
    intro hmem
    have ha : k a ∈ S := hmem a (List.mem_cons_self a t)
    have ht : ∀ x ∈ t, k x ∈ S := fun x hx => hmem x (List.mem_cons_of_mem a hx)
    have hhead : (S.map fun c => (((a :: t).filter fun x => k x == c).map f).sum).sum
        = (S.map fun c => (if k a == c then f a else 0)
            + ((t.filter fun x => k x == c).map f).sum).sum := by
      apply congrArg List.sum
      apply List.map_congr_left
      intro c _
      rcases h : (k a == c) with _ | _ <;> simp [List.filter_cons, h]
    rw [hhead, list_sum_map_add, sum_map_beq_single S hS (k a) ha, ih ht]
    simp

/-- Aggregate sum-and-count as a single monoid fold. -/
lemma pairSum_eq_sum_map {T : Type} (l : List (Payment T)) :
    pairSum l = (l.map fun p => ((p.amount : Int), (1 : Nat))).sum := by
  induction l with
  | nil => rfl
  | cons p t ih =>
    simp [pairSum, List.sum_cons, ← ih, Prod.ext_iff, Nat.add_comm]

/-- Python expression `row.product_category or "uncategorized"`: both the
NULL category and the empty-string category are falsy and fall back to
the label, every other category string is used as the key. -/
def pyOrLabel (c : Option String) : String :=
  match c with
  | none => "uncategorized"
  | some s => if s = "" then "uncategorized" else s

/-- Python dict assignment `categories[key] = value`: replaces the value
when the key is present, otherwise appends the binding (dicts keep
insertion order). -/
def insertEntry (d : List (String × Int × Nat)) (kv : String × Int × Nat) :
    List (String × Int × Nat) :=
  if d.any fun x => x.1 == kv.1 then
    d.map fun x => if x.1 == kv.1 then kv else x
  else d ++ [kv]

/-- Embedding of `PaymentCRUD.revenue_by_category`: the SQL query groups
the matching records by the raw `product_category` column (NULL, the
empty string, and any other value are distinct SQL groups); the Python
loop then builds the response dict keyed by
`row.product_category or "uncategorized"`, overwriting on key collision.
Group order is modelled as order of last occurrence in the record list;
the claims considered do not depend on the SQL grouping order. -/
def revenue_by_category {T : Type} (le : T → T → Bool) (records : List (Payment T))
    (start_date end_date : Option T) (status : String) : List (String × Int × Nat) :=
  let matched := matchedRecords le start_date end_date status records
  let cats := (matched.map (·.product_category)).dedup
  let rows := cats.map fun c => (c, pairSum (matched.filter fun p => p.product_category == c))
  rows.foldl (fun d r => insertEntry d (pyOrLabel r.1, r.2)) []

/-- Grand totals computed by the `by-category` endpoint: the sums of
`revenue` and `transaction_count` over the returned category groups. -/
def byCategoryTotals {T : Type} (le : T → T → Bool) (records : List (Payment T))
    (start_date end_date : Option T) (status : String) : Int × Nat :=
  ((revenue_by_category le records start_date end_date status).map (·.2)).sum

/-- Building the dict is plain appending as long as no two rows collide
on their final label. -/
lemma foldl_insertEntry_eq_append (rows : List (Option String × Int × Nat)) :
    ∀ d : List (String × Int × Nat),
      ((d.map (·.1) ++ rows.map fun r => pyOrLabel r.1).Nodup) →
      rows.foldl (fun acc r => insertEntry acc (pyOrLabel r.1, r.2)) d
        = d ++ rows.map fun r => (pyOrLabel r.1, r.2) := by
  induction rows with
  | nil => intro d _; simp
  | cons r rs ih =>
    intro d hnd
    have hkey : pyOrLabel r.1 ∉ d.map (·.1) := by
      rw [List.nodup_append] at hnd
      intro hc
      exact hnd.2.2 hc (List.mem_cons_self _ _)
    have hins : insertEntry d (pyOrLabel r.1, r.2) = d ++ [(pyOrLabel r.1, r.2)] := by
      unfold insertEntry
      have hany : (d.any fun x => x.1 == (pyOrLabel r.1, r.2).1) = false := by
        rw [List.any_eq_false]
        intro x hx hxeq
        rw [beq_iff_eq] at hxeq
        have hm : x.1 ∈ List.map (fun y : String × Int × Nat => y.1) d :=
          List.mem_map_of_mem _ hx
        rw [hxeq] at hm
        exact hkey hm
      simp [hany]
    have hnd2 : ((d ++ [(pyOrLabel r.1, r.2)]).map (·.1)
        ++ rs.map fun r => pyOrLabel r.1).Nodup := by
      have hshape : (d ++ [(pyOrLabel r.1, r.2)]).map (·.1)
          ++ (rs.map fun r => pyOrLabel r.1)
          = d.map (·.1) ++ (r :: rs).map fun r => pyOrLabel r.1 := by
        simp
      rw [hshape]
      exact hnd
    rw [List.foldl_cons, hins, ih _ hnd2]
    simp

/-- Dict built by the category loop, when no two groups collide on their
final label: plain relabelled group list. -/
lemma dict_eq_of_nodup {T : Type} (matched : List (Payment T))
    (hnd : ((matched.map (·.product_category)).dedup.map pyOrLabel).Nodup) :
    (((matched.map (·.product_category)).dedup.map
        fun c => (c, pairSum (matched.filter fun p => p.product_category == c))).foldl
      (fun d r => insertEntry d (pyOrLabel r.1, r.2)) [])
    = (matched.map (·.product_category)).dedup.map
        fun c => (pyOrLabel c, pairSum (matched.filter fun p => p.product_category == c)) := by
  rw [foldl_insertEntry_eq_append _ []]
  · simp [List.map_map, Function.comp]
  · simpa [List.map_map, Function.comp] using hnd

/-- Comparison used when instantiating the aggregation queries at linear
(epoch-microsecond) timestamps. -/
def intLe (a b : Int) : Bool :=
  decide (a ≤ b)

/-- Template payment row used to build concrete record sets. -/
def basePayment {T : Type} (t : T) : Payment T :=
  { id := 1, transaction_id := "tx-1", customer_id := "cust-1",
    customer_email := "cust@example.com", customer_name := none, amount := 0,
    currency := "USD", payment_method := "card", status := "completed",
    product_name := none, product_category := none, description := none,
    extra_data := none, payment_date := t, created_at := t, updated_at := t }

/-- Record set with one NULL-category and one empty-string-category
completed payment: the SQL query returns two groups, both of which the
response loop keys as "uncategorized", so the second overwrites the
first. -/
def c2cexRecords : List (Payment Int) :=
  [{ basePayment 0 with amount := 5, product_category := some "" },
   { basePayment 0 with amount := 7, product_category := none }]

/-- Claim C2, counterexample: with a NULL-category record and an
empty-string-category record both matching, the by-category groups do
not partition the filtered set — the endpoint totals are (7, 1) while
the ungrouped aggregate is (12, 2). -/
theorem C2_partition_cex :
    byCategoryTotals intLe c2cexRecords none none "completed"
      ≠ calculate_revenue intLe c2cexRecords none none "completed" := by
  decide

/-- Claim C2, amended: whenever no two distinct stored category values
among the matching records collapse to the same response label (that is,
at most one of NULL, the empty string and the literal string
"uncategorized" occurs), the by-category groups partition the filtered
record set: summing per-group revenue and count over the returned groups
gives exactly the ungrouped `calculate_revenue` aggregate. -/
theorem C2_partition_amended {T : Type} (le : T → T → Bool)
    (records : List (Payment T)) (start_date end_date : Option T) (status : String)
    (hnd : (((matchedRecords le start_date end_date status records).map
        (·.product_category)).dedup.map pyOrLabel).Nodup) :
    byCategoryTotals le records start_date end_date status
      = calculate_revenue le records start_date end_date status := by
  unfold byCategoryTotals calculate_revenue
  have hrbc : revenue_by_category le records start_date end_date status
      = ((matchedRecords le start_date end_date status records).map
            (·.product_category)).dedup.map
          fun c => (pyOrLabel c,
            pairSum ((matchedRecords le start_date end_date status records).filter
              fun p => p.product_category == c)) := by
    unfold revenue_by_category
    exact dict_eq_of_nodup (matchedRecords le start_date end_date status records) hnd
  rw [hrbc, List.map_map]
  have hcomp : ((fun x : String × Int × Nat => x.2) ∘
      fun c => (pyOrLabel c,
        pairSum ((matchedRecords le start_date end_date status records).filter
          fun p => p.product_category == c)))
      = fun c => pairSum ((matchedRecords le start_date end_date status records).filter
          fun p => p.product_category == c) := rfl
  rw [hcomp]
  have h2 : (((matchedRecords le start_date end_date status records).map
        (·.product_category)).dedup.map
      fun c => pairSum ((matchedRecords le start_date end_date status records).filter
        fun p => p.product_category == c))
      = ((matchedRecords le start_date end_date status records).map
          (·.product_category)).dedup.map
        fun c => (((matchedRecords le start_date end_date status records).filter
            fun p => p.product_category == c).map
          fun p => ((p.amount : Int), (1 : Nat))).sum :=
    List.map_congr_left fun c _ => pairSum_eq_sum_map _
  rw [h2]
  rw [sum_over_groups (fun p : Payment T => p.product_category)
      (fun p => ((p.amount : Int), (1 : Nat)))
      ((matchedRecords le start_date end_date status records).map (·.product_category)).dedup
      (List.nodup_dedup _)
      (matchedRecords le start_date end_date status records)
      (fun a ha => List.mem_dedup.mpr (List.mem_map_of_mem _ ha))]
  rw [← pairSum_eq_sum_map]

/-- Record set with two non-colliding categories ("books" and NULL). -/
def c2wRecords : List (Payment Int) :=
  [{ basePayment 0 with amount := 50, product_category := some "books" },
   { basePayment 0 with amount := 100, product_category := none }]

/-- Witness for the amended claim C2 on a concrete record set. -/
theorem C2_partition_amended_witness :
    byCategoryTotals intLe c2wRecords none none "completed"
      = calculate_revenue intLe c2wRecords none none "completed" :=
  C2_partition_amended intLe c2wRecords none none "completed" (by decide)

/-- Embedding of `PaymentCRUD.revenue_by_month`: the SQL query keeps the
records whose status matches and whose `payment_date` has calendar-year
component equal to `year`, groups them by the calendar-month component,
and orders the groups by month (`ORDER BY extract month`); the Python
loop then builds the response mapping keyed by the month number. -/
def revenue_by_month (records : List (Payment CalDateTime)) (year : Nat)
    (status : String) : List (Nat × Int × Nat) :=
  let matched := records.filter fun p => p.status == status && p.payment_date.year == year
  let months := List.insertionSort (· ≤ ·) ((matched.map fun p => p.payment_date.month).dedup)
  months.map fun m => (m, pairSum (matched.filter fun p => p.payment_date.month == m))

/-- Grand totals computed by the `by-month` endpoint: the sums of
`revenue` and `transaction_count` over the returned month groups. -/
def byMonthTotals (records : List (Payment CalDateTime)) (year : Nat)
    (status : String) : Int × Nat :=
  ((revenue_by_month records year status).map (·.2)).sum

/-- Claim C9: every key of the by-month mapping is a month number in
1..12 backed by at least one matching record (so a month with zero
matching records is absent rather than present with zero values), and
the serialized months appear in ascending month-number order. -/
theorem C9_by_month_keys (records : List (Payment CalDateTime)) (year : Nat)
    (status : String) :
    (∀ e ∈ revenue_by_month records year status,
        1 ≤ e.1 ∧ e.1 ≤ 12
          ∧ ∃ p ∈ records, p.status = status ∧ p.payment_date.year = year
              ∧ p.payment_date.month = e.1)
    ∧ ((revenue_by_month records year status).map (·.1)).Sorted (· ≤ ·) := by
  constructor
  · intro e he
    simp only [revenue_by_month, List.mem_map] at he
    obtain ⟨m, hm, rfl⟩ := he
    have hm2 : m ∈ ((records.filter fun p =>
        p.status == status && p.payment_date.year == year).map
          fun p => p.payment_date.month).dedup :=
      (List.perm_insertionSort (· ≤ ·) _).mem_iff.mp hm
    rw [List.mem_dedup] at hm2
    obtain ⟨p, hp, hpm⟩ := List.mem_map.mp hm2
    rw [List.mem_filter] at hp
    obtain ⟨hpr, hpf⟩ := hp
    rw [Bool.and_eq_true, beq_iff_eq, beq_iff_eq] at hpf
    exact ⟨hpm ▸ p.payment_date.month_ge, hpm ▸ p.payment_date.month_le,
      p, hpr, hpf.1, hpf.2, hpm⟩
  · simp only [revenue_by_month, List.map_map]
    have hid : ((fun e : Nat × Int × Nat => e.1) ∘ fun m : Nat =>
        (m, pairSum ((records.filter fun p =>
          p.status == status && p.payment_date.year == year).filter
            fun p => p.payment_date.month == m))) = id := rfl
    rw [hid, List.map_id]
    exact List.sorted_insertionSort (· ≤ ·) _

/-- Payment dated 2024-03-05 00:00:00 used for concrete witnesses. -/
def march5_2024 : CalDateTime :=
  { year := 2024, month := 3, day := 5, hour := 0, minute := 0, second := 0, usec := 0 }

/-- One completed March payment of 100. -/
def marchRecords : List (Payment CalDateTime) :=
  [{ basePayment march5_2024 with amount := 100 }]

/-- Witness for claim C9 at a concrete record set and mapping entry. -/
theorem C9_by_month_keys_witness :
    1 ≤ (3 : Nat) ∧ (3 : Nat) ≤ 12
      ∧ ∃ p ∈ marchRecords, p.status = "completed" ∧ p.payment_date.year = 2024
          ∧ p.payment_date.month = 3 :=
  (C9_by_month_keys marchRecords 2024 "completed").1 (3, (100, 1)) (by decide)

/-- Summing the by-month groups over the present months gives the
aggregate over all records of the year, for any record set. -/
lemma byMonthTotals_eq_pairSum (records : List (Payment CalDateTime)) (year : Nat)
    (status : String) :
    byMonthTotals records year status
      = pairSum (records.filter fun p =>
          p.status == status && p.payment_date.year == year) := by
  unfold byMonthTotals
  simp only [revenue_by_month, List.map_map]
  have hcomp : ((fun e : Nat × Int × Nat => e.2) ∘ fun m : Nat =>
      (m, pairSum ((records.filter fun p =>
        p.status == status && p.payment_date.year == year).filter
          fun p => p.payment_date.month == m)))
      = fun m : Nat => pairSum ((records.filter fun p =>
          p.status == status && p.payment_date.year == year).filter
            fun p => p.payment_date.month == m) := rfl
  rw [hcomp]
  have h2 := List.map_congr_left
    (f := fun m : Nat => pairSum ((records.filter fun p =>
        p.status == status && p.payment_date.year == year).filter
          fun p => p.payment_date.month == m))
    (g := fun m : Nat => (((records.filter fun p =>
        p.status == status && p.payment_date.year == year).filter
          fun p => p.payment_date.month == m).map
        fun p => ((p.amount : Int), (1 : Nat))).sum)
    (l := List.insertionSort (· ≤ ·)
      (((records.filter fun p =>
        p.status == status && p.payment_date.year == year).map
          fun p => p.payment_date.month).dedup))
    (fun m _ => pairSum_eq_sum_map _)
  rw [h2]
  rw [sum_over_groups (fun p : Payment CalDateTime => p.payment_date.month)
      (fun p => ((p.amount : Int), (1 : Nat)))
      (List.insertionSort (· ≤ ·)
        (((records.filter fun p =>
          p.status == status && p.payment_date.year == year).map
            fun p => p.payment_date.month).dedup))
      ((List.perm_insertionSort (· ≤ ·) _).nodup_iff.mpr (List.nodup_dedup _))
      (records.filter fun p => p.status == status && p.payment_date.year == year)
      (fun a ha => (List.perm_insertionSort (· ≤ ·) _).mem_iff.mpr
        (List.mem_dedup.mpr (List.mem_map_of_mem _ ha)))]
  rw [← pairSum_eq_sum_map]

/-- First instant of the year (January 1, 00:00:00). -/
def jan1 (y : Nat) : CalDateTime :=
  { year := y, month := 1, day := 1, hour := 0, minute := 0, second := 0, usec := 0 }

/-- Last whole second of the year (December 31, 23:59:59.000000). -/
def dec31End (y : Nat) : CalDateTime :=
  { year := y, month := 12, day := 31, hour := 23, minute := 59, second := 59, usec := 0 }

/-- Having calendar year `y` coincides with lying in the inclusive window
from January 1 to December 31 23:59:59 exactly for timestamps with no
sub-second part. -/
lemma year_eq_iff_window (d : CalDateTime) (y : Nat) (h : d.usec = 0) :
    (d.year == y) = (dtLe (jan1 y) d && dtLe d (dec31End y)) := by
  rw [Bool.eq_iff_iff]
  simp only [Bool.and_eq_true, beq_iff_eq, dtLe, decide_eq_true_eq]
  obtain ⟨yr, mo, da, ho, mi, se, us, h1, h2, h3, h4, h5, h6, h7, h8⟩ := d
  simp only [dtKey, jan1, dec31End] at *
  omega

/-- Payment timestamp 2024-12-31 23:59:59.500000: inside calendar year
2024 but strictly after the whole-second end bound used by the claim. -/
def dec31_2024_sub : CalDateTime :=
  { year := 2024, month := 12, day := 31, hour := 23, minute := 59, second := 59,
    usec := 500000 }

/-- One completed payment in the last half second of 2024. -/
def c3cexRecords : List (Payment CalDateTime) :=
  [{ basePayment dec31_2024_sub with amount := 100 }]

/-- Claim C3, counterexample: a record stamped 2024-12-31 23:59:59.5 is
counted by the by-month aggregation for 2024 but excluded from the
window ending at December 31 23:59:59, so the two totals differ. -/
theorem C3_by_month_total_cex :
    byMonthTotals c3cexRecords 2024 "completed" = (100, 1)
      ∧ calculate_revenue dtLe c3cexRecords (some (jan1 2024)) (some (dec31End 2024))
          "completed" = (0, 0) := by
  decide

/-- Claim C3, amended: when every record's payment timestamp has no
sub-second part, summing the by-month revenue and count over the present
months of a year equals the ungrouped aggregate over the inclusive
window from January 1 00:00:00 to December 31 23:59:59 of that year. -/
theorem C3_by_month_total_amended (records : List (Payment CalDateTime)) (year : Nat)
    (status : String) (husec : ∀ p ∈ records, p.payment_date.usec = 0) :
    byMonthTotals records year status
      = calculate_revenue dtLe records (some (jan1 year)) (some (dec31End year)) status := by
  rw [byMonthTotals_eq_pairSum]
  unfold calculate_revenue matchedRecords
  congr 1
  apply List.filter_congr
  intro p hp
  have h := year_eq_iff_window p.payment_date year (husec p hp)
  unfold matchesFilter
  rcases hs : (p.status == status) with _ | _ <;> simp [hs, h]

/-- Witness for the amended claim C3 on a concrete record set. -/
theorem C3_by_month_total_amended_witness :
    byMonthTotals marchRecords 2024 "completed"
      = calculate_revenue dtLe marchRecords (some (jan1 2024)) (some (dec31End 2024))
          "completed" :=
  C3_by_month_total_amended marchRecords 2024 "completed" (by decide)

/-- Python falsiness of the stored category value: NULL and the empty
string are falsy, every other string is truthy. -/
def isFalsy (c : Option String) : Bool :=
  match c with
  | none => true
  | some s => s == ""

/-- Falsy category values are keyed under the fixed label. -/
lemma pyOrLabel_of_falsy (c : Option String) (h : isFalsy c = true) :
    pyOrLabel c = "uncategorized" := by
  cases c with
  | none => rfl
  | some s =>
    simp only [isFalsy, beq_iff_eq] at h
    simp [pyOrLabel, h]

/-- Record set with a NULL-category payment of 20 followed by a payment
of 10 whose stored category is the literal string "uncategorized": the
response loop writes the NULL group first and then overwrites it. -/
def c10cexRecords : List (Payment Int) :=
  [{ basePayment 0 with amount := 20, product_category := none },
   { basePayment 0 with amount := 10, product_category := some "uncategorized" }]

/-- Claim C10, counterexample: the by-category response keeps only
`("uncategorized", (10, 1))` — the matching NULL-category record's
amount 20 is dropped from the output (neither the falsy-only value
`(20, 1)` nor the merged value `(30, 2)` is returned). -/
theorem C10_uncategorized_cex :
    revenue_by_category intLe c10cexRecords none none "completed"
      = [("uncategorized", ((10 : Int), (1 : Nat)))]
    ∧ ¬ ("uncategorized",
          pairSum ((matchedRecords intLe none none "completed" c10cexRecords).filter
            fun p => isFalsy p.product_category))
        ∈ revenue_by_category intLe c10cexRecords none none "completed" := by
  decide

/-- Claim C10, amended: provided no two distinct stored category values
among the matching records collapse to the same response label, every
matching record with a falsy (NULL or empty-string) category is placed
under the fixed key "uncategorized": that key maps exactly to the sum
and count of the falsy-category matching records, so none of them is
dropped and no null key is emitted. -/
theorem C10_uncategorized_amended {T : Type} (le : T → T → Bool)
    (records : List (Payment T)) (start_date end_date : Option T) (status : String)
    (hnd : (((matchedRecords le start_date end_date status records).map
        (·.product_category)).dedup.map pyOrLabel).Nodup)
    (c0 : Option String)
    (hc0 : c0 ∈ (matchedRecords le start_date end_date status records).map
        (·.product_category))
    (hfalsy : isFalsy c0 = true) :
    ("uncategorized",
      pairSum ((matchedRecords le start_date end_date status records).filter
        fun p => isFalsy p.product_category))
      ∈ revenue_by_category le records start_date end_date status := by
  have hrbc : revenue_by_category le records start_date end_date status
      = ((matchedRecords le start_date end_date status records).map
            (·.product_category)).dedup.map
          fun c => (pyOrLabel c,
            pairSum ((matchedRecords le start_date end_date status records).filter
              fun p => p.product_category == c)) := by
    unfold revenue_by_category
    exact dict_eq_of_nodup (matchedRecords le start_date end_date status records) hnd
  have hpt : ∀ p ∈ matchedRecords le start_date end_date status records,
      (p.product_category == c0) = isFalsy p.product_category := by
    intro p hp
    rcases hic : isFalsy p.product_category with _ | _
    · rcases hbc : (p.product_category == c0) with _ | _
      · rfl
      · rw [beq_iff_eq] at hbc
        rw [hbc, hfalsy] at hic
        cases hic
    · have hlab : pyOrLabel p.product_category = pyOrLabel c0 := by
        rw [pyOrLabel_of_falsy _ hic, pyOrLabel_of_falsy _ hfalsy]
      have hmemp : p.product_category
          ∈ ((matchedRecords le start_date end_date status records).map
              (·.product_category)).dedup :=
        List.mem_dedup.mpr (List.mem_map_of_mem _ hp)
      have hmemc : c0
          ∈ ((matchedRecords le start_date end_date status records).map
              (·.product_category)).dedup :=
        List.mem_dedup.mpr hc0
      have heq := List.inj_on_of_nodup_map hnd hmemp hmemc hlab
      simp [heq]
  have hfilter : (matchedRecords le start_date end_date status records).filter
        (fun p => p.product_category == c0)
      = (matchedRecords le start_date end_date status records).filter
          fun p => isFalsy p.product_category :=
    List.filter_congr hpt
  have hc0d : c0 ∈ ((matchedRecords le start_date end_date status records).map
      (·.product_category)).dedup := List.mem_dedup.mpr hc0
  have hmem := List.mem_map_of_mem
    (fun c => (pyOrLabel c,
      pairSum ((matchedRecords le start_date end_date status records).filter
        fun p => p.product_category == c))) hc0d
  rw [hrbc]
  have hval : (pyOrLabel c0,
      pairSum ((matchedRecords le start_date end_date status records).filter
        fun p => p.product_category == c0))
      = ("uncategorized",
          pairSum ((matchedRecords le start_date end_date status records).filter
            fun p => isFalsy p.product_category)) := by
    rw [pyOrLabel_of_falsy _ hfalsy, hfilter]
  rw [← hval]
  exact hmem

/-- Witness for the amended claim C10 on a concrete record set. -/
theorem C10_uncategorized_amended_witness :
    ("uncategorized",
      pairSum ((matchedRecords intLe none none "completed" c2wRecords).filter
        fun p => isFalsy p.product_category))
      ∈ revenue_by_category intLe c2wRecords none none "completed" :=
  C10_uncategorized_amended intLe c2wRecords none none "completed" (by decide)
    none (by decide) (by decide)

/-- Witness for claim C4 on a concrete record set with no matching
records (no record has status "pending"). -/
theorem C4_empty_match_zero_witness :
    calculate_revenue intLe c2wRecords none none "pending" = (0, 0) :=
  C4_empty_match_zero intLe c2wRecords none none "pending" (by decide)

/-- Python `datetime` as handled by the endpoint layer: the naive
wall-clock reading (microseconds on a linear clock) together with the
optional UTC offset carried by `tzinfo` (`none` = offset-naive).  For an
offset-aware value, `astimezone(UTC)` yields the wall clock of the UTC
instant, namely the reading minus the offset, and `replace(tzinfo=None)`
drops the offset marker. -/
structure PyDatetime where
  wall : Int
  tzoff : Option Int
deriving DecidableEq

/-- Embedding of `ensure_timezone_naive` from
`app/api/v1/endpoints/revenue.py`: convert an offset-aware value to UTC
and strip the offset, return an offset-naive value unchanged. -/
def ensure_timezone_naive (dt : PyDatetime) : PyDatetime :=
  match dt.tzoff with
  | some off => { wall := dt.wall - off, tzoff := none }
  | none => dt

/-- Claim C5: the normalizer is total and returns, for an offset-aware
input, the offset-naive timestamp whose wall-clock reading is the
corresponding UTC instant, and returns an offset-naive input unchanged. -/
theorem C5_normalizer_spec (dt : PyDatetime) :
    (ensure_timezone_naive dt).tzoff = none
      ∧ (∀ off, dt.tzoff = some off
          → ensure_timezone_naive dt = { wall := dt.wall - off, tzoff := none })
      ∧ (dt.tzoff = none → ensure_timezone_naive dt = dt) := by
  obtain ⟨w, tz⟩ := dt
  cases tz <;> simp [ensure_timezone_naive]

/-- Witness for claim C5 at a concrete offset-aware timestamp. -/
theorem C5_normalizer_spec_witness :
    ensure_timezone_naive { wall := 100, tzoff := some 7 }
      = { wall := 93, tzoff := none } :=
  (C5_normalizer_spec { wall := 100, tzoff := some 7 }).2.1 7 rfl

/-- Claim C6: the normalizer is idempotent on every timestamp. -/
theorem C6_normalizer_idempotent (dt : PyDatetime) :
    ensure_timezone_naive (ensure_timezone_naive dt) = ensure_timezone_naive dt := by
  obtain ⟨w, tz⟩ := dt
  cases tz <;> simp [ensure_timezone_naive]

/-- HTTP error raised by the endpoints (`fastapi.HTTPException`). -/
structure HTTPException where
  status_code : Nat
  detail : String
deriving DecidableEq

/-- Embedding of the `custom-range` endpoint: parse both bounds with the
third-party date parser (supplied as an oracle, failures carrying the
parser's message), normalize each to offset-naive UTC, reject reversed
ranges with HTTP 400, and otherwise aggregate over the inclusive window.
Response shaping (period label, echoed ISO bounds) is omitted; the
success value is the `(total, count)` aggregate. -/
def get_revenue_custom_range (parse : String → Except String PyDatetime)
    (records : List (Payment Int)) (start_date end_date status : String) :
    Except HTTPException (Int × Nat) :=
  match parse start_date with
  | .error e => .error { status_code := 400
                         detail := "Invalid date format. Use ISO format: " ++ e }
  | .ok sraw =>
    match parse end_date with
    | .error e => .error { status_code := 400
                           detail := "Invalid date format. Use ISO format: " ++ e }
    | .ok eraw =>
      let start_dt := ensure_timezone_naive sraw
      let end_dt := ensure_timezone_naive eraw
      if end_dt.wall < start_dt.wall then
        .error { status_code := 400, detail := "start_date must be before end_date" }
      else
        .ok (calculate_revenue intLe records (some start_dt.wall) (some end_dt.wall) status)

/-- Claim C7: whenever both bounds parse and their normalized values are
out of order (start strictly after end), the custom-range endpoint fails
with the HTTP 400 range-order error, for every record set and status,
and returns no aggregate. -/
theorem C7_custom_range_order (parse : String → Except String PyDatetime)
    (records : List (Payment Int)) (start_date end_date status : String)
    (s e : PyDatetime)
    (hs : parse start_date = .ok s) (he : parse end_date = .ok e)
    (hgt : (ensure_timezone_naive e).wall < (ensure_timezone_naive s).wall) :
    get_revenue_custom_range parse records start_date end_date status
      = .error { status_code := 400, detail := "start_date must be before end_date" } := by
  unfold get_revenue_custom_range
  rw [hs, he]
  simp [hgt]

/-- Date parser oracle mapping the bound named "b" to instant 0 and
every other string to instant 5, all offset-naive. -/
def c7parse (t : String) : Except String PyDatetime :=
  if t = "b" then .ok { wall := 0, tzoff := none } else .ok { wall := 5, tzoff := none }

/-- Witness for claim C7 at a concrete reversed range. -/
theorem C7_custom_range_order_witness :
    get_revenue_custom_range c7parse c2wRecords "a" "b" "completed"
      = .error { status_code := 400, detail := "start_date must be before end_date" } :=
  C7_custom_range_order c7parse c2wRecords "a" "b" "completed"
    { wall := 5, tzoff := none } { wall := 0, tzoff := none }
    rfl rfl (by decide)

/-- Microseconds in one day: `timedelta(days=1)` on the linear clock. -/
def usecPerDay : Int := 86400000000

/-- Embedding of the `last-n-days` endpoint: reject `days < 1` with HTTP
400 before touching the database, otherwise aggregate over the inclusive
window from `now - days` days to `now`, where `now` is the normalized
current UTC instant (passed as a parameter).  Response shaping is
omitted; the success value is the `(total, count)` aggregate. -/
def get_revenue_last_n_days (now : Int) (records : List (Payment Int))
    (days : Int) (status : String) : Except HTTPException (Int × Nat) :=
  if days < 1 then
    .error { status_code := 400, detail := "days must be at least 1" }
  else
    .ok (calculate_revenue intLe records (some (now - days * usecPerDay)) (some now) status)

/-- Claim C8: for `days < 1` the last-n-days endpoint fails with the
HTTP 400 invalid-parameter error without aggregating; for `days >= 1` it
succeeds with the aggregate over the inclusive window
`[now - days * 24h, now]`, a record matching exactly when its status
matches and its timestamp lies within those bounds (so `days = 1` covers
exactly the 24 hours up to the current instant). -/
theorem C8_last_n_days (now : Int) (records : List (Payment Int)) (days : Int)
    (status : String) :
    (days < 1 → get_revenue_last_n_days now records days status
        = .error { status_code := 400, detail := "days must be at least 1" })
    ∧ (1 ≤ days → get_revenue_last_n_days now records days status
          = .ok (calculate_revenue intLe records (some (now - days * usecPerDay))
              (some now) status)
        ∧ ∀ p ∈ records,
            (matchesFilter intLe (some (now - days * usecPerDay)) (some now) status p = true
              ↔ p.status = status ∧ now - days * usecPerDay ≤ p.payment_date
                  ∧ p.payment_date ≤ now)) := by
  constructor
  · intro h
    unfold get_revenue_last_n_days
    simp [h]
  · intro h
    constructor
    · unfold get_revenue_last_n_days
      simp [show ¬ days < 1 by omega]
    · intro p _
      rw [matchesFilter_iff_specMatches]
      unfold specMatches intLe
      simp

/-- Witness for claim C8: `days = 0` is rejected with HTTP 400 and
`days = 1` aggregates over the 24-hour window ending at the current
instant. -/
theorem C8_last_n_days_witness :
    get_revenue_last_n_days 86400000000 c2wRecords 0 "completed"
      = .error { status_code := 400, detail := "days must be at least 1" }
    ∧ get_revenue_last_n_days 86400000000 c2wRecords 1 "completed"
      = .ok (calculate_revenue intLe c2wRecords (some (86400000000 - 1 * usecPerDay))
          (some 86400000000) "completed") :=
  ⟨(C8_last_n_days 86400000000 c2wRecords 0 "completed").1 (by decide),
   ((C8_last_n_days 86400000000 c2wRecords 1 "completed").2 (by decide)).1⟩
